import Mathlib

/-!
Verification of the `DQChecker` rule-evaluation engine of `DQ.py`.

Shallow embedding: a pandas DataFrame becomes a list of named columns over
rows of cells; a cell is `Option Val` with `none` for NaN/null; Python
numbers are integers and rationals; Python `re` patterns are a small regex
AST matched with Brzozowski derivatives (start-anchored, as `re.match` is);
Python code that can raise is embedded in `Except Unit`.  String primitives
are modelled over character lists so that every definition evaluates by
kernel reduction.
-/

namespace DQ

/-- A non-null cell value as pandas stores it: a Python string, int or float.
Floats are modelled as rationals. -/
inductive Val where
  | str (s : String)
  | intv (n : Int)
  | floatv (q : Rat)
deriving DecidableEq, Repr

/-- A cell of the table: `none` models NaN / null. -/
abbrev Cell := Option Val

/-- Python str() of a stored value.  A float holding an integer prints with a
trailing ".0" (str(5.0) = "5.0"), the behaviour the syntax dimension's
normalization exists for.  The fallback arm for a non-integral float is a
total placeholder (no rule or claim in this development evaluates it). -/
def pyStr : Val → String
  | .str s => s
  | .intv n => toString n
  | .floatv q =>
    if q.den = 1 then toString q.num ++ ".0"
    else toString q.num ++ "/" ++ toString q.den

/-- Numeric value of a digit list read in base 10. -/
def digitsToNat (cs : List Char) : Nat :=
  cs.foldl (fun a c => a * 10 + (c.toNat - 48)) 0

/-- Leading and trailing whitespace removed, as Python's float() tolerates. -/
def trimChars (cs : List Char) : List Char :=
  ((cs.dropWhile Char.isWhitespace).reverse.dropWhile Char.isWhitespace).reverse

/-- pd.to_numeric(..., errors='coerce') applied to one string: an optional
sign, an integer part and an optional fractional part parse to a rational;
anything else is NaN (`none`).  Exponent forms are not modelled (no rule in
scope uses them). -/
def parseDecimal (s : String) : Option Rat :=
  let cs := trimChars s.toList
  let signAndRest : Int × List Char :=
    match cs with
    | '-' :: t => (-1, t)
    | '+' :: t => (1, t)
    | t => (1, t)
  let sign := signAndRest.1
  let rest := signAndRest.2
  let intPart := rest.takeWhile Char.isDigit
  let afterInt := rest.dropWhile Char.isDigit
  match afterInt with
  | [] =>
    if intPart.isEmpty then none
    else some ((sign * digitsToNat intPart : Int) : Rat)
  | '.' :: frac =>
    if frac.all Char.isDigit && !(intPart.isEmpty && frac.isEmpty) then
      some ((sign : Rat) * ((digitsToNat intPart : Rat)
        + (digitsToNat frac : Rat) / ((10 : Rat) ^ frac.length)))
    else none
  | _ => none

/-- pd.to_numeric with errors='coerce' on one cell: numbers pass through,
numeric-looking strings parse, everything else (and null) becomes NaN. -/
def toNumeric? : Cell → Option Rat
  | none => none
  | some (.intv n) => some (n : Rat)
  | some (.floatv q) => some q
  | some (.str s) => parseDecimal s

/-- A pandas DataFrame: ordered column names over rows of cells.  Access pads
a short row with nulls, so no rectangularity side condition is needed. -/
structure DataFrame where
  colNames : List String
  rows : List (List Cell)

namespace DataFrame

/-- len(df): the number of rows. -/
def nRows (df : DataFrame) : Nat := df.rows.length

/-- The number of columns. -/
def nCols (df : DataFrame) : Nat := df.colNames.length

/-- df.size: columns times rows. -/
def size (df : DataFrame) : Nat := df.nCols * df.nRows

/-- Position of a column name, if the name is present. -/
def colIndex? (df : DataFrame) (c : String) : Option Nat :=
  df.colNames.findIdx? (fun n => n == c)

/-- `col in df.columns`. -/
def hasCol (df : DataFrame) (c : String) : Bool := (df.colIndex? c).isSome

/-- df[c]: the column as a list of cells; [] for an absent name (callers
either guard with hasCol or catch the KeyError). -/
def getCol (df : DataFrame) (c : String) : List Cell :=
  match df.colIndex? c with
  | some i => df.rows.map (fun r => r.getD i none)
  | none => []

/-- Cells of the column at one position. -/
def colAt (df : DataFrame) (i : Nat) : List Cell :=
  df.rows.map (fun r => r.getD i none)

/-- df.isnull().sum().sum(): null cells across the whole table. -/
def nullCount (df : DataFrame) : Nat :=
  ((List.range df.nCols).map (fun i => (df.colAt i).countP Option.isNone)).sum

/-- df.isnull().all(axis=1) for one row (vacuously true with no columns,
exactly as in pandas). -/
def rowAllNull (df : DataFrame) (r : List Cell) : Bool :=
  (List.range df.nCols).all (fun i => (r.getD i none).isNone)

/-- The number of all-null rows. -/
def emptyRows (df : DataFrame) : Nat := df.rows.countP df.rowAllNull

end DataFrame

/-- The fragment of Python regular expressions the rules under verification
use: literal characters, the class [0-9], concatenation, alternation and the
Kleene star ("+" is r·r*). -/
inductive Regex where
  | emptyLang
  | eps
  | ch (c : Char)
  | digit
  | cat (r s : Regex)
  | alt (r s : Regex)
  | star (r : Regex)
deriving DecidableEq, Repr

namespace Regex

/-- Whether the regex accepts the empty string. -/
def nullable : Regex → Bool
  | .emptyLang => false
  | .eps => true
  | .ch _ => false
  | .digit => false
  | .cat r s => nullable r && nullable s
  | .alt r s => nullable r || nullable s
  | .star _ => true

/-- Brzozowski derivative by one character. -/
def deriv : Regex → Char → Regex
  | .emptyLang, _ => .emptyLang
  | .eps, _ => .emptyLang
  | .ch c, d => if c == d then .eps else .emptyLang
  | .digit, d => if d.isDigit then .eps else .emptyLang
  | .cat r s, d =>
    if nullable r then .alt (.cat (deriv r d) s) (deriv s d)
    else .cat (deriv r d) s
  | .alt r s, d => .alt (deriv r d) (deriv s d)
  | .star r, d => .cat (deriv r d) (.star r)

/-- Whole-list acceptance. -/
def acceptsList (r : Regex) : List Char → Bool
  | [] => nullable r
  | c :: cs => acceptsList (deriv r c) cs

/-- Some (possibly empty) leading segment of the list is accepted. -/
def matchAtStart (r : Regex) : List Char → Bool
  | [] => nullable r
  | c :: cs => nullable r || matchAtStart (deriv r c) cs

/-- r+ as r·r*. -/
def plus (r : Regex) : Regex := .cat r (.star r)

/-- A literal word. -/
def lit (s : String) : Regex :=
  s.toList.foldr (fun c r => .cat (.ch c) r) .eps

end Regex

/-- A compiled pattern as used with re.match: matching is implicitly anchored
at the start of the subject (a leading "^" is a no-op under match);
`endAnchor` records a trailing "$". -/
structure Pattern where
  body : Regex
  endAnchor : Bool
deriving DecidableEq, Repr

/-- re.match(p, s) is not None: with a trailing "$" the whole string must be
accepted, otherwise some leading segment must be.  Start-anchored in both
cases — match semantics, not search semantics. -/
def reMatch (p : Pattern) (s : String) : Bool :=
  if p.endAnchor then p.body.acceptsList s.toList
  else p.body.matchAtStart s.toList

/-- re.search semantics, kept only as a foil: a match anywhere in the
subject.  The source uses re.match, never re.search. -/
def reSearch (p : Pattern) (s : String) : Bool :=
  (List.range (s.toList.length + 1)).any
    (fun i =>
      if p.endAnchor then p.body.acceptsList (s.toList.drop i)
      else p.body.matchAtStart (s.toList.drop i))

/-- A pattern entry of the rules document: `none` models a pattern string
that does not compile, so that re.match raises re.error when it is applied. -/
abbrev RePat := Option Pattern

/-- Python s.endswith(suffix), over characters. -/
def pyEndsWith (s suffix : String) : Bool :=
  suffix.toList.isSuffixOf s.toList

/-- Python s[:-n] for n ≤ len(s), over characters. -/
def pyDropRight (s : String) (n : Nat) : String :=
  String.mk (s.toList.take (s.toList.length - n))

/-- clean_str from check_syntax_validity: s[:-2] if s.endswith('.0') else s —
one trailing ".0" is stripped, once. -/
def clean_str (s : String) : String :=
  if pyEndsWith s ".0" then pyDropRight s 2 else s

/-- The {min, max} mapping of one range rule; a missing key makes
limits['min'] / limits['max'] raise KeyError. -/
structure RangeLimits where
  lo? : Option Rat
  hi? : Option Rat
deriving Repr

/-- The pandas query expressions exercised by the relationship rules in
scope: an ordered comparison "lhs <= rhs" between two named columns. -/
inductive QueryFormula where
  | le (lhs rhs : String)
deriving DecidableEq, Repr

/-- One referential-integrity check. -/
structure RefCheck where
  parent_file : String
  child_column : String
  parent_column : String
deriving DecidableEq, Repr

/-- The external readers pd.read_csv / pd.read_excel as one oracle: `none`
models any load failure (missing path, unreadable, malformed file). -/
abbrev FileSystem := String → Option DataFrame

/-- The "3_syntax_validity" section; its "columns" mapping may be absent. -/
structure SyntaxSection where
  columns : Option (List (String × RePat))

/-- The "4_semantic_validity" section. -/
structure SemanticSection where
  columns : Option (List (String × List Val))

/-- The "5_range_validity" section. -/
structure RangeSection where
  columns : Option (List (String × RangeLimits))

/-- The "6_relationship_validity" section; its "rules" list may be absent. -/
structure RelSection where
  rules : Option (List QueryFormula)

/-- The "7_referential_integrity" section; its "checks" list may be absent. -/
structure RefSection where
  checks : Option (List RefCheck)

/-- The evaluation_rules mapping: each recognized sub-section is optional. -/
structure EvalRules where
  syntax_validity : Option SyntaxSection
  semantic_validity : Option SemanticSection
  range_validity : Option RangeSection
  relationship_validity : Option RelSection
  referential_integrity : Option RefSection

/-- The empty evaluation_rules mapping. -/
def emptyEvalRules : EvalRules := ⟨none, none, none, none, none⟩

/-- A parsed rules document; the top-level "evaluation_rules" key may be
absent. -/
structure RulesDoc where
  evaluation_rules : Option EvalRules

/-- The engine: a dataset and the extracted evaluation_rules mapping. -/
structure DQChecker where
  df : DataFrame
  rules : EvalRules

/-- DQChecker.__init__: self.rules = rules.get("evaluation_rules", {}) — a
missing top-level key yields the empty mapping, not an error. -/
def DQChecker.ofDoc (df : DataFrame) (doc : RulesDoc) : DQChecker :=
  ⟨df, doc.evaluation_rules.getD emptyEvalRules⟩

/-- The score expression every dimension shares:
(1 - violations/total)*100 when total > 0, else 100. -/
def dqScore (inv tot : Nat) : Rat :=
  if 0 < tot then (1 - (inv : Rat) / (tot : Rat)) * 100 else 100

namespace DQChecker

/-- self.rules.get("3_syntax_validity", {}).get("columns", {}). -/
def syntaxRules (c : DQChecker) : List (String × RePat) :=
  (c.rules.syntax_validity.bind SyntaxSection.columns).getD []

/-- self.rules.get("4_semantic_validity", {}).get("columns", {}). -/
def semanticRules (c : DQChecker) : List (String × List Val) :=
  (c.rules.semantic_validity.bind SemanticSection.columns).getD []

/-- self.rules.get("5_range_validity", {}).get("columns", {}). -/
def rangeRules (c : DQChecker) : List (String × RangeLimits) :=
  (c.rules.range_validity.bind RangeSection.columns).getD []

/-- self.rules.get("6_relationship_validity", {}).get("rules", []). -/
def relRules (c : DQChecker) : List QueryFormula :=
  (c.rules.relationship_validity.bind RelSection.rules).getD []

/-- self.rules.get("7_referential_integrity", {}).get("checks", []). -/
def refRules (c : DQChecker) : List RefCheck :=
  (c.rules.referential_integrity.bind RefSection.checks).getD []

/-- check_value_completeness: null cells over all cells. -/
def check_value_completeness (c : DQChecker) : Rat :=
  dqScore c.df.nullCount c.df.size

/-- check_record_completeness: all-null rows over all rows. -/
def check_record_completeness (c : DQChecker) : Rat :=
  dqScore c.df.emptyRows c.df.nRows

end DQChecker

/-- Validity of one non-null value under a compiled pattern:
re.match(pattern, clean_str(str(x))) is not None. -/
def syntaxValueOk (p : Pattern) (v : Val) : Bool :=
  reMatch p (clean_str (pyStr v))

/-- Invalid values in one dropna'd column: (~matches).sum(). -/
def syntaxColInvalid (p : Pattern) (series : List Val) : Nat :=
  series.countP (fun v => !(syntaxValueOk p v))

/-- The loop of check_syntax_validity: over the configured columns in order,
accumulate (invalid_count, total_checks).  A column absent from the dataset
is skipped; null cells are dropped first; a pattern that does not compile
raises (re.error) as soon as it is applied to a non-empty series. -/
def syntaxCounts (df : DataFrame) : List (String × RePat) → Except Unit (Nat × Nat)
  | [] => .ok (0, 0)
  | (col, pat) :: rest =>
    if df.hasCol col then
      let series := (df.getCol col).filterMap id
      if series.isEmpty then syntaxCounts df rest
      else
        match pat with
        | none => .error ()
        | some p =>
          match syntaxCounts df rest with
          | .error e => .error e
          | .ok acc => .ok (syntaxColInvalid p series + acc.1, series.length + acc.2)
    else syntaxCounts df rest

/-- check_syntax_validity. -/
def DQChecker.check_syntax_validity (c : DQChecker) : Except Unit Rat :=
  if c.syntaxRules.isEmpty then .ok 100
  else
    match syntaxCounts c.df c.syntaxRules with
    | .error e => .error e
    | .ok acc => .ok (dqScore acc.1 acc.2)

/-- The numeric reading of a value, used by Python comparisons: an int and a
float holding the same number are equal. -/
def valToNum? : Val → Option Rat
  | .intv n => some (n : Rat)
  | .floatv q => some q
  | .str _ => none

/-- Equality as isin applies it: numbers compare numerically across
int/float, strings compare as strings, a string never equals a number. -/
def valEq (a b : Val) : Bool :=
  match valToNum? a, valToNum? b with
  | some x, some y => x == y
  | _, _ =>
    match a, b with
    | .str s, .str t => s == t
    | _, _ => false

/-- ~df[col].isin(valid_list) on one cell: a null is in no list of concrete
allowed values, so it counts as invalid. -/
def semCellInvalid (valid : List Val) : Cell → Bool
  | none => true
  | some v => !(valid.any (fun w => valEq v w))

/-- (~df[col].isin(valid_list)).sum(). -/
def semInvalid (cells : List Cell) (valid : List Val) : Nat :=
  cells.countP (semCellInvalid valid)

/-- The loop of check_semantic_validity: for each configured column that is
present, invalid values over the full column length len(df). -/
def semanticCounts (df : DataFrame) : List (String × List Val) → Nat × Nat
  | [] => (0, 0)
  | (col, valid) :: rest =>
    let acc := semanticCounts df rest
    if df.hasCol col then (semInvalid (df.getCol col) valid + acc.1, df.nRows + acc.2)
    else acc

/-- check_semantic_validity (total and never raising, as in the source). -/
def DQChecker.check_semantic_validity (c : DQChecker) : Except Unit Rat :=
  if c.semanticRules.isEmpty then .ok 100
  else
    let acc := semanticCounts c.df c.semanticRules
    .ok (dqScore acc.1 acc.2)

/-- One cell against (temp < min) | (temp > max) after coercion: NaN (a null
or a non-coercible value) compares false on both sides, so it is never
counted as a violation. -/
def rangeViolation (lo hi : Rat) (cell : Cell) : Bool :=
  match toNumeric? cell with
  | some x => decide (x < lo) || decide (hi < x)
  | none => false

/-- The loop of check_range_validity: for each configured column that is
present, read limits['min'] and limits['max'] (KeyError — an uncaught raise —
when absent) and count out-of-range coerced values over len(df). -/
def rangeCounts (df : DataFrame) : List (String × RangeLimits) → Except Unit (Nat × Nat)
  | [] => .ok (0, 0)
  | (col, limits) :: rest =>
    if df.hasCol col then
      match limits.lo?, limits.hi? with
      | some lo, some hi =>
        match rangeCounts df rest with
        | .error e => .error e
        | .ok acc => .ok ((df.getCol col).countP (rangeViolation lo hi) + acc.1,
                          df.nRows + acc.2)
      | _, _ => .error ()
    else rangeCounts df rest

/-- check_range_validity. -/
def DQChecker.check_range_validity (c : DQChecker) : Except Unit Rat :=
  if c.rangeRules.isEmpty then .ok 100
  else
    match rangeCounts c.df c.rangeRules with
    | .error e => .error e
    | .ok acc => .ok (dqScore acc.1 acc.2)

/-- Lexicographic order on character lists (Python string comparison by code
point). -/
def charListLe : List Char → List Char → Bool
  | [], _ => true
  | _ :: _, [] => false
  | a :: as, b :: bs => if a == b then charListLe as bs else decide (a < b)

/-- One row of "lhs <= rhs" under df.query(..., engine='python'): numbers
compare numerically (a null in a numeric column is NaN, whose comparisons
are false), strings compare lexicographically, and comparing a string with a
number raises TypeError. -/
def cellLe : Cell → Cell → Except Unit Bool
  | none, _ => .ok false
  | _, none => .ok false
  | some a, some b =>
    match valToNum? a, valToNum? b with
    | some x, some y => .ok (decide (x ≤ y))
    | _, _ =>
      match a, b with
      | .str s, .str t => .ok (charListLe s.toList t.toList)
      | _, _ => .error ()

/-- len(df.query(rule["formula"], engine='python')): the number of rows
satisfying the formula; raises when a referenced column is absent from the
dataset or a comparison there is ill-typed. -/
def evalQuery (df : DataFrame) : QueryFormula → Except Unit Nat
  | .le a b =>
    if df.hasCol a && df.hasCol b then
      ((df.getCol a).zip (df.getCol b)).foldl
        (fun acc p =>
          match acc, cellLe p.1 p.2 with
          | .ok n, .ok true => .ok (n + 1)
          | .ok n, .ok false => .ok n
          | .ok _, .error e => .error e
          | .error e, _ => .error e) (.ok 0)
    else .error ()

/-- The loop of check_relationship_validity: per rule, try the query and add
len(df) - valid_count; a rule whose query raises is skipped (except:
continue) and contributes nothing. -/
def relViolations (df : DataFrame) : List QueryFormula → Nat
  | [] => 0
  | r :: rest =>
    (match evalQuery df r with
     | .ok valid => df.nRows - valid
     | .error _ => 0) + relViolations df rest

/-- total_checks = len(self.df) * len(rel_rules): every rule counts, also the
skipped ones. -/
def relTotalChecks (df : DataFrame) (rules : List QueryFormula) : Nat :=
  df.nRows * rules.length

/-- check_relationship_validity (total: every per-rule failure is caught). -/
def DQChecker.check_relationship_validity (c : DQChecker) : Except Unit Rat :=
  if c.relRules.isEmpty then .ok 100
  else .ok (dqScore (relViolations c.df c.relRules) (relTotalChecks c.df c.relRules))

/-- Membership as isin computes it for possibly-null collections: NaN
matches NaN, values match by valEq. -/
def cellIsin (cell : Cell) (coll : List Cell) : Bool :=
  match cell with
  | none => coll.any (fun c => c.isNone)
  | some v => coll.any (fun c =>
      match c with
      | some w => valEq v w
      | none => false)

/-- The body of one referential check's try-block: the violation count on
success; `none` when loading the parent file raises or a column lookup
raises KeyError (child column in the dataset, parent column in the parent). -/
def refAttempt (fs : FileSystem) (df : DataFrame) (r : RefCheck) : Option Nat :=
  match fs r.parent_file with
  | none => none
  | some pdf =>
    if df.hasCol r.child_column && pdf.hasCol r.parent_column then
      some ((df.getCol r.child_column).countP
        (fun c => !(cellIsin c (pdf.getCol r.parent_column))))
    else none

/-- The loop of check_referential_integrity: a failed attempt is skipped
(except: continue) and contributes zero violations. -/
def refViolations (fs : FileSystem) (df : DataFrame) : List RefCheck → Nat
  | [] => 0
  | r :: rest => (refAttempt fs df r).getD 0 + refViolations fs df rest

/-- total_checks = len(self.df) * len(ref_rules): every check counts, also
the skipped ones. -/
def refTotalChecks (df : DataFrame) (checks : List RefCheck) : Nat :=
  df.nRows * checks.length

/-- check_referential_integrity, with the filesystem the parent files are
read from passed explicitly (ambient I/O in the source). -/
def DQChecker.check_referential_integrity (c : DQChecker) (fs : FileSystem) : Except Unit Rat :=
  if c.refRules.isEmpty then .ok 100
  else .ok (dqScore (refViolations fs c.df c.refRules) (refTotalChecks c.df c.refRules))

/-- dqScore lies in [0,100] whenever violations do not exceed checks. -/
theorem dqScore_bounds {inv tot : Nat} (h : inv ≤ tot) :
    0 ≤ dqScore inv tot ∧ dqScore inv tot ≤ 100 := by
  by_cases hpos : 0 < tot
  · unfold dqScore
    rw [if_pos hpos]
    have h0 : (0 : Rat) < (tot : Rat) := by exact_mod_cast hpos
    have hx0 : (0 : Rat) ≤ (inv : Rat) / (tot : Rat) :=
      div_nonneg (by positivity) h0.le
    have hx1 : (inv : Rat) / (tot : Rat) ≤ 1 :=
      (div_le_one h0).mpr (by exact_mod_cast h)
    constructor <;> nlinarith
  · unfold dqScore
    rw [if_neg hpos]
    norm_num

/-- dqScore with a zero denominator is the perfect score. -/
theorem dqScore_zero (inv : Nat) : dqScore inv 0 = 100 := by
  simp [dqScore]

/-- A column never has more cells than the table has rows. -/
theorem DataFrame.getCol_length_le (df : DataFrame) (c : String) :
    (df.getCol c).length ≤ df.nRows := by
  cases h : df.colIndex? c <;> simp [DataFrame.getCol, h, DataFrame.nRows]

/-- Null cells never outnumber the cells of the table. -/
theorem DataFrame.nullCount_le_size (df : DataFrame) : df.nullCount ≤ df.size := by
  unfold DataFrame.nullCount DataFrame.size
  have h := List.sum_le_card_nsmul
    ((List.range df.nCols).map (fun i => (df.colAt i).countP Option.isNone)) df.nRows ?_
  · simpa [mul_comm] using h
  · intro x hx
    simp only [List.mem_map] at hx
    obtain ⟨i, _, rfl⟩ := hx
    calc (df.colAt i).countP Option.isNone ≤ (df.colAt i).length :=
          List.countP_le_length _
      _ = df.nRows := by simp [DataFrame.colAt, DataFrame.nRows]

/-- All-null rows never outnumber the rows. -/
theorem DataFrame.emptyRows_le_nRows (df : DataFrame) : df.emptyRows ≤ df.nRows :=
  List.countP_le_length _

/-- Invalid values of a column never outnumber its checked values. -/
theorem syntaxColInvalid_le (p : Pattern) (s : List Val) :
    syntaxColInvalid p s ≤ s.length :=
  List.countP_le_length _

/-- When the syntax loop succeeds, invalid_count never exceeds total_checks. -/
theorem syntaxCounts_le (df : DataFrame) :
    ∀ (l : List (String × RePat)) (acc : Nat × Nat),
      syntaxCounts df l = .ok acc → acc.1 ≤ acc.2 := by
  intro l
  induction l with
  | nil =>
    intro acc h
    simp only [syntaxCounts] at h
    injection h with h2
    rw [← h2]
  | cons hd tl ih =>
    obtain ⟨col, pat⟩ := hd
    intro acc h
    simp only [syntaxCounts] at h
    by_cases hc : df.hasCol col
    · rw [if_pos hc] at h
      by_cases he : ((df.getCol col).filterMap id).isEmpty
      · rw [if_pos he] at h
        exact ih acc h
      · rw [if_neg he] at h
        cases pat with
        | none => simp at h
        | some p =>
          cases hrec : syntaxCounts df tl with
          | error e => rw [hrec] at h; simp at h
          | ok acc2 =>
            rw [hrec] at h
            injection h with h2
            rw [← h2]
            exact Nat.add_le_add (syntaxColInvalid_le p _) (ih acc2 hrec)
    · rw [if_neg hc] at h
      exact ih acc h

/-- In the semantic loop, invalid_count never exceeds total_checks. -/
theorem semanticCounts_le (df : DataFrame) (l : List (String × List Val)) :
    (semanticCounts df l).1 ≤ (semanticCounts df l).2 := by
  induction l with
  | nil => simp [semanticCounts]
  | cons hd tl ih =>
    obtain ⟨col, valid⟩ := hd
    simp only [semanticCounts]
    by_cases hc : df.hasCol col
    · rw [if_pos hc]
      refine Nat.add_le_add ?_ ih
      calc semInvalid (df.getCol col) valid ≤ (df.getCol col).length :=
            List.countP_le_length _
        _ ≤ df.nRows := df.getCol_length_le col
    · rw [if_neg hc]
      exact ih

/-- When the range loop succeeds, invalid_count never exceeds total_checks. -/
theorem rangeCounts_le (df : DataFrame) :
    ∀ (l : List (String × RangeLimits)) (acc : Nat × Nat),
      rangeCounts df l = .ok acc → acc.1 ≤ acc.2 := by
  intro l
  induction l with
  | nil =>
    intro acc h
    simp only [rangeCounts] at h
    injection h with h2
    rw [← h2]
  | cons hd tl ih =>
    obtain ⟨col, limits⟩ := hd
    obtain ⟨mlo, mhi⟩ := limits
    intro acc h
    simp only [rangeCounts] at h
    by_cases hc : df.hasCol col
    · rw [if_pos hc] at h
      cases mlo with
      | none => simp at h
      | some lo =>
        cases mhi with
        | none => simp at h
        | some hi =>
          cases hrec : rangeCounts df tl with
          | error e => rw [hrec] at h; simp at h
          | ok acc2 =>
            rw [hrec] at h
            injection h with h2
            rw [← h2]
            refine Nat.add_le_add ?_ (ih acc2 hrec)
            calc (df.getCol col).countP (rangeViolation lo hi) ≤ (df.getCol col).length :=
                  List.countP_le_length _
              _ ≤ df.nRows := df.getCol_length_le col
    · rw [if_neg hc] at h
      exact ih acc h

/-- Relationship violations never exceed rows × rules. -/
theorem relViolations_le (df : DataFrame) (l : List QueryFormula) :
    relViolations df l ≤ relTotalChecks df l := by
  induction l with
  | nil => simp [relViolations, relTotalChecks]
  | cons r rest ih =>
    have h1 : (match evalQuery df r with
               | .ok valid => df.nRows - valid
               | .error _ => 0) ≤ df.nRows := by
      cases evalQuery df r <;> simp [Nat.sub_le]
    have h2 : relViolations df rest ≤ df.nRows * rest.length := ih
    calc relViolations df (r :: rest)
        ≤ df.nRows + df.nRows * rest.length := Nat.add_le_add h1 h2
      _ = df.nRows * (rest.length + 1) := by ring
      _ = relTotalChecks df (r :: rest) := by simp [relTotalChecks]

/-- One referential attempt contributes at most len(df) violations. -/
theorem refAttempt_le (fs : FileSystem) (df : DataFrame) (r : RefCheck) :
    (refAttempt fs df r).getD 0 ≤ df.nRows := by
  unfold refAttempt
  cases hfs : fs r.parent_file with
  | none => simp [hfs]
  | some pdf =>
    simp only [hfs]
    split
    · simpa using le_trans (List.countP_le_length _) (df.getCol_length_le r.child_column)
    · simp

/-- Referential violations never exceed rows × checks. -/
theorem refViolations_le (fs : FileSystem) (df : DataFrame) (l : List RefCheck) :
    refViolations fs df l ≤ refTotalChecks df l := by
  induction l with
  | nil => simp [refViolations, refTotalChecks]
  | cons r rest ih =>
    have h2 : refViolations fs df rest ≤ df.nRows * rest.length := ih
    calc refViolations fs df (r :: rest)
        ≤ df.nRows + df.nRows * rest.length :=
          Nat.add_le_add (refAttempt_le fs df r) h2
      _ = df.nRows * (rest.length + 1) := by ring
      _ = refTotalChecks df (r :: rest) := by simp [refTotalChecks]

/-- A rule whose query raises contributes nothing to the violation total. -/
theorem relViolations_skip (df : DataFrame) (r : QueryFormula) (rest : List QueryFormula)
    (h : evalQuery df r = .error ()) :
    relViolations df (r :: rest) = relViolations df rest := by
  simp [relViolations, h]


/-- Dataset of one column "v" holding the single non-numeric string "abc". -/
def df1 : DataFrame := ⟨["v"], [[some (.str "abc")]]⟩

/-- Engine over df1 with the range rule v: {min: 0, max: 10}. -/
def c1 : DQChecker := ⟨df1, ⟨none, none, some ⟨some [("v", ⟨some 0, some 10⟩)]⟩, none, none⟩⟩

/-- C1, counterexample.  The claim says check_range_validity counts a value
that cannot be coerced to a number as a violation, so that "abc" under
{min: 0, max: 10} yields at least one violation.  In the code,
pd.to_numeric(..., errors='coerce') turns "abc" into NaN and both bound
comparisons on NaN are false, so the loop records 0 violations out of 1
check and the score is a perfect 100. -/
theorem range_nonnumeric_counterexample :
    toNumeric? (some (Val.str "abc")) = none ∧
    rangeCounts df1 [("v", ⟨some 0, some 10⟩)] = .ok (0, 1) ∧
    c1.check_range_validity = .ok 100 := by
  refine ⟨rfl, rfl, ?_⟩
  have h : c1.check_range_validity = .ok (dqScore 0 1) := rfl
  rw [h]
  have h2 : dqScore 0 1 = 100 := by norm_num [dqScore]
  rw [h2]

/-- C1, amended.  check_range_validity counts a value as a violation only
when it coerces to a number lying outside [min, max]; a value whose coercion
fails becomes NaN, satisfies neither bound comparison, and is never counted
— so a non-numeric string under {min: 0, max: 10} contributes zero
violations (while still counting toward total_checks via len(df)). -/
theorem range_nonnumeric_never_violation :
    ∀ (lo hi : Rat) (cell : Cell), toNumeric? cell = none →
      rangeViolation lo hi cell = false := by
  intro lo hi cell h
  unfold rangeViolation
  rw [h]

/-- Witness for range_nonnumeric_never_violation at lo = 0, hi = 10 and the
concrete non-coercible cell "abc". -/
theorem range_nonnumeric_never_violation_witness :
    rangeViolation 0 10 (some (Val.str "abc")) = false :=
  range_nonnumeric_never_violation 0 10 (some (Val.str "abc")) rfl

/-- Engine whose syntax rule for column "v" is a pattern that does not
compile (as the Python source would hold an invalid regex string). -/
def cS : DQChecker :=
  ⟨⟨["v"], [[some (.str "x")]]⟩, ⟨some ⟨some [("v", none)]⟩, none, none, none, none⟩⟩

/-- Engine whose range rule for column "v" is missing its min key. -/
def cR : DQChecker :=
  ⟨df1, ⟨none, none, some ⟨some [("v", ⟨none, some 10⟩)]⟩, none, none⟩⟩

/-- C2, counterexample.  The claim says no exception propagates out of any
dimension-scoring call even for malformed rules.  In the code only the
relationship and referential loops have try/except: an invalid regex makes
check_syntax_validity raise re.error, and a range rule missing "min" makes
check_range_validity raise KeyError — both propagate to the caller. -/
theorem malformed_rule_raises :
    cS.check_syntax_validity = .error () ∧
    cR.check_range_validity = .error () :=
  ⟨rfl, rfl⟩

/-- C2, amended.  Per-rule exception suppression exists only in
check_relationship_validity and check_referential_integrity (and
check_semantic_validity cannot raise); those three calls always return a
score.  check_syntax_validity and check_range_validity have no handler, so a
malformed regex or a range rule missing min/max aborts the dimension. -/
theorem exception_containment_by_dimension :
    ∀ (c : DQChecker) (fs : FileSystem),
      (∃ q, c.check_semantic_validity = Except.ok q) ∧
      (∃ q, c.check_relationship_validity = Except.ok q) ∧
      (∃ q, c.check_referential_integrity fs = Except.ok q) := by
  intro c fs
  refine ⟨?_, ?_, ?_⟩
  · by_cases h : c.semanticRules.isEmpty
    · exact ⟨100, by simp [DQChecker.check_semantic_validity, h]⟩
    · exact ⟨dqScore (semanticCounts c.df c.semanticRules).1
          (semanticCounts c.df c.semanticRules).2,
        by simp [DQChecker.check_semantic_validity, h]⟩
  · by_cases h : c.relRules.isEmpty
    · exact ⟨100, by simp [DQChecker.check_relationship_validity, h]⟩
    · exact ⟨dqScore (relViolations c.df c.relRules) (relTotalChecks c.df c.relRules),
        by simp [DQChecker.check_relationship_validity, h]⟩
  · by_cases h : c.refRules.isEmpty
    · exact ⟨100, by simp [DQChecker.check_referential_integrity, h]⟩
    · exact ⟨dqScore (refViolations fs c.df c.refRules) (refTotalChecks c.df c.refRules),
        by simp [DQChecker.check_referential_integrity, h]⟩


/-- Dataset with columns "A" and "B" and the single row (A=5, B=3). -/
def df3 : DataFrame := ⟨["A", "B"], [[some (.intv 5), some (.intv 3)]]⟩

/-- Two relationship rules: "A <= C" references the absent column "C", and
"A <= B" fails on the one row. -/
def rules3 : List QueryFormula := [.le "A" "C", .le "A" "B"]

/-- Engine over df3 with the two relationship rules. -/
def c3 : DQChecker := ⟨df3, ⟨none, none, none, some ⟨some rules3⟩, none⟩⟩

/-- C3, counterexample.  The claim says a rule referencing an absent column
is excluded from both numerator and denominator in every dimension.  In
check_relationship_validity the rule "A <= C" (column "C" absent) is indeed
skipped from the violations, but total_checks = len(df)·len(rules) still
counts it: with one row and rules ["A <= C", "A <= B"] the code uses
denominator 2 and scores 50, where exclusion would use denominator 1 and
score 0. -/
theorem absent_column_denominator_counterexample :
    df3.hasCol "C" = false ∧
    evalQuery df3 (QueryFormula.le "A" "C") = .error () ∧
    relViolations df3 rules3 = 1 ∧
    relTotalChecks df3 rules3 = 2 ∧
    c3.check_relationship_validity = .ok 50 := by
  refine ⟨rfl, rfl, rfl, rfl, ?_⟩
  have h : c3.check_relationship_validity = .ok (dqScore 1 2) := rfl
  rw [h]
  have h2 : dqScore 1 2 = 50 := by norm_num [dqScore]
  rw [h2]

/-- C3, amended.  A rule naming an absent column contributes to neither
count in the per-column dimensions (syntax, semantic, range); in the
relationship dimension the failing query is excluded from the violations
only — total_checks still grows by len(df) for the skipped rule (and
referential integrity shares that denominator shape). -/
theorem absent_column_skip_behavior :
    ∀ (df : DataFrame) (col : String) (pat : RePat) (valid : List Val)
      (lim : RangeLimits) (sr : List (String × RePat)) (mr : List (String × List Val))
      (rr : List (String × RangeLimits)) (b : String) (qr : List QueryFormula),
      df.hasCol col = false →
        syntaxCounts df ((col, pat) :: sr) = syntaxCounts df sr ∧
        semanticCounts df ((col, valid) :: mr) = semanticCounts df mr ∧
        rangeCounts df ((col, lim) :: rr) = rangeCounts df rr ∧
        evalQuery df (QueryFormula.le col b) = .error () ∧
        relViolations df (QueryFormula.le col b :: qr) = relViolations df qr ∧
        relTotalChecks df (QueryFormula.le col b :: qr) = df.nRows + relTotalChecks df qr := by
  intro df col pat valid lim sr mr rr b qr h
  have hq : evalQuery df (QueryFormula.le col b) = .error () := by
    simp [evalQuery, h]
  refine ⟨?_, ?_, ?_, hq, relViolations_skip df _ qr hq, ?_⟩
  · simp [syntaxCounts, h]
  · simp [semanticCounts, h]
  · simp [rangeCounts, h]
  · simp only [relTotalChecks, List.length_cons]
    ring

/-- Witness for absent_column_skip_behavior on df3 and its absent column
"C". -/
theorem absent_column_skip_behavior_witness :
    syntaxCounts df3 [("C", none)] = syntaxCounts df3 [] ∧
    semanticCounts df3 [("C", [])] = semanticCounts df3 [] ∧
    rangeCounts df3 [("C", ⟨some 0, some 1⟩)] = rangeCounts df3 [] ∧
    evalQuery df3 (QueryFormula.le "C" "A") = .error () ∧
    relViolations df3 [QueryFormula.le "C" "A"] = relViolations df3 [] ∧
    relTotalChecks df3 [QueryFormula.le "C" "A"] = df3.nRows + relTotalChecks df3 [] :=
  absent_column_skip_behavior df3 "C" none [] ⟨some 0, some 1⟩ [] [] [] "A" [] rfl

/-- Dataset with columns "A", "B" and rows (A=1, B=2) and (A=5, B=3). -/
def df4 : DataFrame :=
  ⟨["A", "B"], [[some (.intv 1), some (.intv 2)], [some (.intv 5), some (.intv 3)]]⟩

/-- Engine over df4 with the single relationship rule "A <= B". -/
def c4 : DQChecker := ⟨df4, ⟨none, none, none, some ⟨some [.le "A" "B"]⟩, none⟩⟩

/-- C4.  A relationship rule whose query raises is skipped without touching
the other rules' violations, while total_checks keeps counting it via
len(df)·len(rules); and concretely "A <= B" over rows (1,2), (5,3) gives 1
violation out of 2 checks, score exactly 50. -/
theorem relationship_rule_skip_and_score :
    (∀ (df : DataFrame) (r : QueryFormula) (rest : List QueryFormula),
        evalQuery df r = .error () →
          relViolations df (r :: rest) = relViolations df rest ∧
          relTotalChecks df (r :: rest) = df.nRows + relTotalChecks df rest) ∧
    evalQuery df4 (QueryFormula.le "A" "B") = .ok 1 ∧
    relViolations df4 [QueryFormula.le "A" "B"] = 1 ∧
    relTotalChecks df4 [QueryFormula.le "A" "B"] = 2 ∧
    c4.check_relationship_validity = .ok 50 := by
  refine ⟨?_, rfl, rfl, rfl, ?_⟩
  · intro df r rest h
    refine ⟨relViolations_skip df r rest h, ?_⟩
    simp only [relTotalChecks, List.length_cons]
    ring
  · have h : c4.check_relationship_validity = .ok (dqScore 1 2) := rfl
    rw [h]
    have h2 : dqScore 1 2 = 50 := by norm_num [dqScore]
    rw [h2]

/-- Witness for the universal part of relationship_rule_skip_and_score, at
df4 and the raising rule "A <= C". -/
theorem relationship_rule_skip_and_score_witness :
    relViolations df4 [QueryFormula.le "A" "C"] = relViolations df4 [] ∧
    relTotalChecks df4 [QueryFormula.le "A" "C"] = df4.nRows + relTotalChecks df4 [] :=
  relationship_rule_skip_and_score.1 df4 (QueryFormula.le "A" "C") [] rfl

/-- C5.  A referential check whose parent file fails to load is skipped
silently: the attempt yields nothing, the violation total is unchanged, and
the dimension still returns a score (no error) whose denominator
len(df)·len(checks) includes the skipped check. -/
theorem referential_load_failure_skip :
    ∀ (fs : FileSystem) (df : DataFrame) (r : RefCheck) (rest : List RefCheck),
      fs r.parent_file = none →
        refAttempt fs df r = none ∧
        refViolations fs df (r :: rest) = refViolations fs df rest ∧
        (⟨df, ⟨none, none, none, none, some ⟨some (r :: rest)⟩⟩⟩ : DQChecker).check_referential_integrity fs
          = .ok (dqScore (refViolations fs df rest) (df.nRows * (rest.length + 1))) := by
  intro fs df r rest h
  have ha : refAttempt fs df r = none := by
    unfold refAttempt
    rw [h]
  have hv : refViolations fs df (r :: rest) = refViolations fs df rest := by
    simp [refViolations, ha]
  have hc : (⟨df, ⟨none, none, none, none, some ⟨some (r :: rest)⟩⟩⟩ : DQChecker).check_referential_integrity fs
      = .ok (dqScore (refViolations fs df (r :: rest)) (refTotalChecks df (r :: rest))) := rfl
  have ht : refTotalChecks df (r :: rest) = df.nRows * (rest.length + 1) := by
    simp [refTotalChecks]
  exact ⟨ha, hv, by rw [hc, hv, ht]⟩

/-- The filesystem on which every load fails. -/
def fsNone : FileSystem := fun _ => none

/-- A referential check whose parent file path cannot be loaded. -/
def r5 : RefCheck := ⟨"parent.xlsx", "v", "pv"⟩

/-- Witness for referential_load_failure_skip at fsNone, df1 and r5. -/
theorem referential_load_failure_skip_witness :
    refAttempt fsNone df1 r5 = none ∧
    refViolations fsNone df1 [r5] = refViolations fsNone df1 [] ∧
    (⟨df1, ⟨none, none, none, none, some ⟨some [r5]⟩⟩⟩ : DQChecker).check_referential_integrity fsNone
      = .ok (dqScore (refViolations fsNone df1 []) (df1.nRows * (([] : List RefCheck).length + 1))) :=
  referential_load_failure_skip fsNone df1 r5 [] rfl


/-- The pattern "^[0-9]+$": one or more digits spanning the whole string. -/
def digitsAnch : Pattern := ⟨Regex.plus Regex.digit, true⟩

/-- Dataset with one column "n" holding a null, the float 5.0 and the string
"7". -/
def df6 : DataFrame := ⟨["n"], [[none], [some (.floatv 5)], [some (.str "7")]]⟩

/-- Engine over df6 with the syntax rule n: "^[0-9]+$". -/
def c6 : DQChecker := ⟨df6, ⟨some ⟨some [("n", some digitsAnch)]⟩, none, none, none, none⟩⟩

/-- C6.  check_syntax_validity drops nulls before counting (a dropped null
moves neither the invalid count nor the checked length), normalizes values
by str() plus one ".0" strip so the float 5.0 matches "^[0-9]+$", and
matches with start-anchored match semantics: on "a5" a search for "[0-9]+"
would succeed, yet the checker counts "a5" invalid because match must start
at the beginning.  On df6 the null is excluded (2 checks, not 3), 5.0 and
"7" are both valid, and the score is 100. -/
theorem syntax_normalization_and_anchoring :
    (∀ (cells : List Cell) (p : Pattern),
        syntaxColInvalid p ((none :: cells).filterMap id)
          = syntaxColInvalid p (cells.filterMap id) ∧
        ((none :: cells).filterMap id).length = (cells.filterMap id).length) ∧
    clean_str (pyStr (Val.floatv 5)) = "5" ∧
    reMatch digitsAnch "5" = true ∧
    syntaxCounts df6 [("n", some digitsAnch)] = .ok (0, 2) ∧
    c6.check_syntax_validity = .ok 100 ∧
    reSearch ⟨Regex.plus Regex.digit, false⟩ "a5" = true ∧
    reMatch ⟨Regex.plus Regex.digit, false⟩ "a5" = false ∧
    syntaxColInvalid ⟨Regex.plus Regex.digit, false⟩ [Val.str "a5"] = 1 := by
  refine ⟨?_, rfl, rfl, rfl, ?_, rfl, rfl, rfl⟩
  · intro cells p
    constructor <;> simp
  · have h : c6.check_syntax_validity = .ok (dqScore 0 2) := rfl
    rw [h]
    have h2 : dqScore 0 2 = 100 := by norm_num [dqScore]
    rw [h2]

/-- C7.  In check_semantic_validity no drop or normalization step runs: a
null cell is never isin the allowed list so it always counts as invalid, and
each configured present column grows total_checks by the full len(df). -/
theorem semantic_null_cells_invalid :
    (∀ (valid : List Val), semCellInvalid valid none = true) ∧
    (∀ (cells : List Cell) (valid : List Val),
        semInvalid (none :: cells) valid = semInvalid cells valid + 1) ∧
    (∀ (df : DataFrame) (col : String) (valid : List Val)
        (rest : List (String × List Val)),
        df.hasCol col = true →
          semanticCounts df ((col, valid) :: rest)
            = (semInvalid (df.getCol col) valid + (semanticCounts df rest).1,
               df.nRows + (semanticCounts df rest).2)) := by
  refine ⟨fun valid => rfl, ?_, ?_⟩
  · intro cells valid
    simp [semInvalid, List.countP_cons, semCellInvalid]
  · intro df col valid rest h
    simp [semanticCounts, h]

/-- Witness for semantic_null_cells_invalid at df3 and its column "A". -/
theorem semantic_null_cells_invalid_witness :
    semanticCounts df3 [("A", [])]
      = (semInvalid (df3.getCol "A") [] + (semanticCounts df3 []).1,
         df3.nRows + (semanticCounts df3 []).2) :=
  semantic_null_cells_invalid.2.2 df3 "A" [] [] rfl

/-- C9.  A rule-driven dimension whose extracted rule list is empty — the
sub-section absent, its inner key absent, or the mapping empty all extract
to [] — returns exactly 100 on every dataset; and a document without the
top-level evaluation_rules key yields the empty mapping, so all five
rule-driven dimensions score 100 rather than raising. -/
theorem empty_rules_trivial_hundred :
    ∀ (c : DQChecker) (fs : FileSystem) (df : DataFrame) (doc : RulesDoc),
      (c.syntaxRules = [] → c.check_syntax_validity = .ok 100) ∧
      (c.semanticRules = [] → c.check_semantic_validity = .ok 100) ∧
      (c.rangeRules = [] → c.check_range_validity = .ok 100) ∧
      (c.relRules = [] → c.check_relationship_validity = .ok 100) ∧
      (c.refRules = [] → c.check_referential_integrity fs = .ok 100) ∧
      (doc.evaluation_rules = none →
        (DQChecker.ofDoc df doc).rules = emptyEvalRules ∧
        (DQChecker.ofDoc df doc).check_syntax_validity = .ok 100 ∧
        (DQChecker.ofDoc df doc).check_semantic_validity = .ok 100 ∧
        (DQChecker.ofDoc df doc).check_range_validity = .ok 100 ∧
        (DQChecker.ofDoc df doc).check_relationship_validity = .ok 100 ∧
        (DQChecker.ofDoc df doc).check_referential_integrity fs = .ok 100) := by
  intro c fs df doc
  refine ⟨?_, ?_, ?_, ?_, ?_, ?_⟩
  · intro h; simp [DQChecker.check_syntax_validity, h]
  · intro h; simp [DQChecker.check_semantic_validity, h]
  · intro h; simp [DQChecker.check_range_validity, h]
  · intro h; simp [DQChecker.check_relationship_validity, h]
  · intro h; simp [DQChecker.check_referential_integrity, h]
  · intro h
    have hr : (DQChecker.ofDoc df doc).rules = emptyEvalRules := by
      simp [DQChecker.ofDoc, h]
    refine ⟨hr, ?_, ?_, ?_, ?_, ?_⟩
    all_goals
      simp [DQChecker.check_syntax_validity, DQChecker.check_semantic_validity,
        DQChecker.check_range_validity, DQChecker.check_relationship_validity,
        DQChecker.check_referential_integrity, DQChecker.syntaxRules,
        DQChecker.semanticRules, DQChecker.rangeRules, DQChecker.relRules,
        DQChecker.refRules, hr, emptyEvalRules]

/-- Witness for empty_rules_trivial_hundred: c1 has no syntax rules, and the
document without evaluation_rules scores 100 on df1. -/
theorem empty_rules_trivial_hundred_witness :
    c1.check_syntax_validity = .ok 100 ∧
    (DQChecker.ofDoc df1 ⟨none⟩).rules = emptyEvalRules ∧
    (DQChecker.ofDoc df1 ⟨none⟩).check_relationship_validity = .ok 100 :=
  ⟨(empty_rules_trivial_hundred c1 fsNone df1 ⟨none⟩).1 rfl,
   ((empty_rules_trivial_hundred c1 fsNone df1 ⟨none⟩).2.2.2.2.2 rfl).1,
   ((empty_rules_trivial_hundred c1 fsNone df1 ⟨none⟩).2.2.2.2.2 rfl).2.2.2.2.1⟩

/-- The pattern "^abc\.0$": it accepts exactly the string "abc.0", i.e. it
requires a literal trailing ".0". -/
def p10 : Pattern := ⟨Regex.lit "abc.0", true⟩

/-- C10, counterexample.  The claim concludes that a pattern requiring a
literal trailing ".0" can never match any value.  clean_str strips ".0"
only once, so the value "abc.0.0" normalizes to "abc.0" and matches
"^abc\.0$" (which accepts "abc.0" and rejects "abc"): the checker counts
"abc.0.0" valid — while, ironically, the value "abc.0" itself is stripped
to "abc" and counted invalid. -/
theorem clean_str_double_suffix_counterexample :
    clean_str "abc.0.0" = "abc.0" ∧
    reMatch p10 "abc.0" = true ∧
    reMatch p10 "abc" = false ∧
    syntaxColInvalid p10 [Val.str "abc.0.0"] = 0 ∧
    syntaxColInvalid p10 [Val.str "abc.0"] = 1 :=
  ⟨rfl, rfl, rfl, rfl, rfl⟩

/-- C10, amended.  The ".0"-strip applies to the string form of every
non-null value but only once: a string ending in ".0" loses exactly its last
two characters and any other string is left unchanged — so a pattern that
requires a literal trailing ".0" fails on values whose string form ends in a
single ".0", yet can still match a value whose string form ends in ".0.0". -/
theorem clean_str_single_pass :
    ∀ (s : String),
      (pyEndsWith s ".0" = true → clean_str s = pyDropRight s 2) ∧
      (pyEndsWith s ".0" = false → clean_str s = s) ∧
      syntaxValueOk p10 (Val.str "abc.0.0") = true ∧
      syntaxValueOk p10 (Val.str "abc.0") = false := by
  intro s
  refine ⟨?_, ?_, rfl, rfl⟩
  · intro h; simp [clean_str, h]
  · intro h; simp [clean_str, h]

/-- Witness for clean_str_single_pass at "5.0" and "abc". -/
theorem clean_str_single_pass_witness :
    clean_str "5.0" = pyDropRight "5.0" 2 ∧ clean_str "abc" = "abc" :=
  ⟨(clean_str_single_pass "5.0").1 rfl, (clean_str_single_pass "abc").2.1 rfl⟩


/-- C8.  Every dimension score lies in [0, 100]: value and record
completeness are bounded and return exactly 100 on a table with zero cells
or zero rows, and each of the five rule-driven dimensions, whenever it
returns a score at all, returns one between 0 and 100 — in particular
check_syntax_validity never goes below 0, because its invalid count can
never exceed its total of checks. -/
theorem scores_bounded :
    ∀ (c : DQChecker) (fs : FileSystem),
      (0 ≤ c.check_value_completeness ∧ c.check_value_completeness ≤ 100) ∧
      (c.df.size = 0 → c.check_value_completeness = 100) ∧
      (0 ≤ c.check_record_completeness ∧ c.check_record_completeness ≤ 100) ∧
      (c.df.nRows = 0 → c.check_record_completeness = 100) ∧
      (∀ q, c.check_syntax_validity = .ok q → 0 ≤ q ∧ q ≤ 100) ∧
      (∀ q, c.check_semantic_validity = .ok q → 0 ≤ q ∧ q ≤ 100) ∧
      (∀ q, c.check_range_validity = .ok q → 0 ≤ q ∧ q ≤ 100) ∧
      (∀ q, c.check_relationship_validity = .ok q → 0 ≤ q ∧ q ≤ 100) ∧
      (∀ q, c.check_referential_integrity fs = .ok q → 0 ≤ q ∧ q ≤ 100) := by
  intro c fs
  have h100 : (0 : Rat) ≤ 100 ∧ (100 : Rat) ≤ 100 := by norm_num
  refine ⟨?_, ?_, ?_, ?_, ?_, ?_, ?_, ?_, ?_⟩
  · exact dqScore_bounds c.df.nullCount_le_size
  · intro h
    unfold DQChecker.check_value_completeness
    rw [h]
    exact dqScore_zero _
  · exact dqScore_bounds c.df.emptyRows_le_nRows
  · intro h
    unfold DQChecker.check_record_completeness
    rw [h]
    exact dqScore_zero _
  · intro q hq
    unfold DQChecker.check_syntax_validity at hq
    by_cases he : c.syntaxRules.isEmpty
    · rw [if_pos he] at hq
      injection hq with h2
      rw [← h2]
      exact h100
    · rw [if_neg he] at hq
      cases hsc : syntaxCounts c.df c.syntaxRules with
      | error e => rw [hsc] at hq; simp at hq
      | ok acc =>
        rw [hsc] at hq
        injection hq with h2
        rw [← h2]
        exact dqScore_bounds (syntaxCounts_le c.df _ acc hsc)
  · intro q hq
    unfold DQChecker.check_semantic_validity at hq
    by_cases he : c.semanticRules.isEmpty
    · rw [if_pos he] at hq
      injection hq with h2
      rw [← h2]
      exact h100
    · rw [if_neg he] at hq
      injection hq with h2
      rw [← h2]
      exact dqScore_bounds (semanticCounts_le c.df _)
  · intro q hq
    unfold DQChecker.check_range_validity at hq
    by_cases he : c.rangeRules.isEmpty
    · rw [if_pos he] at hq
      injection hq with h2
      rw [← h2]
      exact h100
    · rw [if_neg he] at hq
      cases hrc : rangeCounts c.df c.rangeRules with
      | error e => rw [hrc] at hq; simp at hq
      | ok acc =>
        rw [hrc] at hq
        injection hq with h2
        rw [← h2]
        exact dqScore_bounds (rangeCounts_le c.df _ acc hrc)
  · intro q hq
    unfold DQChecker.check_relationship_validity at hq
    by_cases he : c.relRules.isEmpty
    · rw [if_pos he] at hq
      injection hq with h2
      rw [← h2]
      exact h100
    · rw [if_neg he] at hq
      injection hq with h2
      rw [← h2]
      exact dqScore_bounds (relViolations_le c.df _)
  · intro q hq
    unfold DQChecker.check_referential_integrity at hq
    by_cases he : c.refRules.isEmpty
    · rw [if_pos he] at hq
      injection hq with h2
      rw [← h2]
      exact h100
    · rw [if_neg he] at hq
      injection hq with h2
      rw [← h2]
      exact dqScore_bounds (refViolations_le fs c.df _)

/-- The table with no columns and no rows. -/
def dfE : DataFrame := ⟨[], []⟩

/-- Engine over the empty table with no rules at all. -/
def cE : DQChecker := ⟨dfE, emptyEvalRules⟩

/-- Witness for scores_bounded on the empty table: zero cells and zero rows
give exactly 100, and the syntax dimension returns the in-range score 100. -/
theorem scores_bounded_witness :
    (0 ≤ cE.check_value_completeness ∧ cE.check_value_completeness ≤ 100) ∧
    cE.check_value_completeness = 100 ∧
    cE.check_record_completeness = 100 ∧
    (0 ≤ (100 : Rat) ∧ (100 : Rat) ≤ 100) :=
  ⟨(scores_bounded cE fsNone).1,
   (scores_bounded cE fsNone).2.1 rfl,
   (scores_bounded cE fsNone).2.2.2.1 rfl,
   (scores_bounded cE fsNone).2.2.2.2.1 100 rfl⟩

end DQ
